import Mathlib

/-!
Shallow embedding of the NetSuite report-export automation core
(`netsuite_export.py`, `main.py`) and proofs about its specification.

External, effectful operations (Playwright page probes, clicks, downloads,
filesystem scans) are modelled as environment-supplied outcomes: an operation
that can raise is an `Except` value, an operation that returns a boolean is a
`Bool`.  Every Python function in scope is translated into a total Lean
function over such an environment; Python `try/except` blocks become `match`
on the `Except` outcome.  Diagnostics captures (`_save_debug_artifacts`
invocations) are tracked as lists of label strings.
-/

namespace Woobing

/-- Bool test that the character list `s` starts with the pattern `p`. -/
def charsStartWith : List Char → List Char → Bool
  | _, [] => true
  | [], _ :: _ => false
  | c :: cs, p :: ps => c = p && charsStartWith cs ps

/-- Bool test that the pattern occurs as a contiguous sublist of `s`
(Python's `pat in s` on strings). -/
def charsContain (pat : List Char) : List Char → Bool
  | [] => pat.isEmpty
  | c :: rest => charsStartWith (c :: rest) pat || charsContain pat rest

/-- Python `pat in s` for strings. -/
def strContains (s pat : String) : Bool :=
  charsContain pat.toList s.toList

/-- Python `s.endswith(pat)`. -/
def strEndsWith (s pat : String) : Bool :=
  charsStartWith s.toList.reverse pat.toList.reverse

/-- Python `s.lower()` (ASCII case folding, as in the URLs and labels this
program lowercases). -/
def strToLower (s : String) : String :=
  String.mk (s.toList.map Char.toLower)

/-- Python `description.replace(' ', '_').lower()` as used to build the
diagnostics label in `_click_first_visible` / `_fill_first_visible`
(netsuite_export.py lines 116 and 131). -/
def sanitizeLabel (d : String) : String :=
  strToLower (String.mk (d.toList.map (fun c => if c = ' ' then '_' else c)))

/-!  ### Diagnostics Sink: `_save_debug_artifacts` (lines 89-101)

`_save_debug_artifacts` returns immediately when `self.page` is unset and
otherwise writes a screenshot and an HTML snapshot inside a `try/except` that
swallows every error; it therefore never raises.  We model it as a total
function returning the list of artifact label stems actually written. -/

/-- Files written by one `_save_debug_artifacts(prefixLabel)` call:
nothing when the page is absent or the write fails, the label otherwise. -/
def saveDebugArtifacts (pagePresent : Bool) (writeOk : Bool) (label : String) :
    List String :=
  if pagePresent then (if writeOk then [label] else []) else []

/-!  ### Element Resolver: `_click_first_visible` / `_fill_first_visible`
(netsuite_export.py lines 103-132)

Both functions run the same loop: for each selector, inside `try/except`,
resolve the locator, probe visibility (`is_visible(timeout=1000)`), and when
visible perform the action (click / fill) and return `True`; any exception
abandons the candidate and the loop continues.  After an unsuccessful loop a
single diagnostics capture is requested and `False` is returned.

A candidate's behaviour on the live page is its probe outcome (the locator
resolution plus `is_visible`, which can raise or return a boolean) and its
action outcome (the click or fill, which can raise). -/

deriving instance DecidableEq for Except

structure CandidateBehavior where
  probe : Except Unit Bool
  act : Except Unit Unit

/-- The shared selector loop of `_click_first_visible` and
`_fill_first_visible`: index of the candidate that was acted on
successfully, or `none`. -/
def resolveLoop : List CandidateBehavior → Option Nat
  | [] => none
  | c :: rest =>
    match c.probe with
    | .ok true =>
      match c.act with
      | .ok _ => some 0
      | .error _ => (resolveLoop rest).map (· + 1)
    | .ok false => (resolveLoop rest).map (· + 1)
    | .error _ => (resolveLoop rest).map (· + 1)

/-- Function `_click_first_visible(selectors, description)`: the index acted on (so
the returned boolean is `isSome`) together with the diagnostics captures
requested. -/
def clickFirstVisible (cands : List CandidateBehavior) (description : String) :
    Option Nat × List String :=
  match resolveLoop cands with
  | some i => (some i, [])
  | none => (none, [sanitizeLabel description ++ "_click_error"])

/-- Function `_fill_first_visible(selectors, value, description)`: same loop shape as
`_click_first_visible`, with the fill as the action and a `_fill_error`
labelled capture on failure. -/
def fillFirstVisible (cands : List CandidateBehavior) (description : String) :
    Option Nat × List String :=
  match resolveLoop cands with
  | some i => (some i, [])
  | none => (none, [sanitizeLabel description ++ "_fill_error"])

/-- A candidate that the loop can finish on: its visibility probe returned
`true` and its action succeeded. -/
def hitCandidate (c : CandidateBehavior) : Prop :=
  c.probe = .ok true ∧ c.act = .ok ()

instance (c : CandidateBehavior) : Decidable (hitCandidate c) := by
  unfold hitCandidate; infer_instance

theorem resolveLoop_earliest (cands : List CandidateBehavior) (i : Nat)
    (hi : i < cands.length) (hhit : hitCandidate (cands.get ⟨i, hi⟩))
    (hmin : ∀ j (hj : j < i), ¬ hitCandidate (cands.get ⟨j, Nat.lt_trans hj hi⟩)) :
    resolveLoop cands = some i := by
  induction cands generalizing i with
  | nil => exact absurd hi (Nat.not_lt_zero i)
  | cons c rest ih =>
    cases i with
    | zero =>
      obtain ⟨hp, ha⟩ := hhit
      simp only [List.get] at hp ha
      simp [resolveLoop, hp, ha]
    | succ i =>
      have hc0 : ¬ hitCandidate c := hmin 0 (Nat.succ_pos i)
      have hi' : i < rest.length := Nat.lt_of_succ_lt_succ hi
      have hrec : resolveLoop rest = some i := by
        refine ih i hi' hhit ?_
        intro j hj
        exact hmin (j + 1) (Nat.succ_lt_succ hj)
      unfold resolveLoop
      match hp : c.probe with
      | .ok true =>
        match ha : c.act with
        | .ok () => exact absurd ⟨hp, ha⟩ hc0
        | .error e => simp [hrec]
      | .ok false => simp [hrec]
      | .error e => simp [hrec]

theorem resolveLoop_none_of_no_visible (cands : List CandidateBehavior)
    (h : ∀ c ∈ cands, c.probe ≠ .ok true) :
    resolveLoop cands = none := by
  induction cands with
  | nil => rfl
  | cons c rest ih =>
    have hc := h c (List.mem_cons_self c rest)
    have hrec := ih (fun d hd => h d (List.mem_cons_of_mem c hd))
    unfold resolveLoop
    match hp : c.probe with
    | .ok true => exact absurd hp hc
    | .ok false => simp [hrec]
    | .error e => simp [hrec]

/-- C4: for every ordered candidate list in which some candidate is visible
and its action succeeds, `_click_first_visible` / `_fill_first_visible` act
on the earliest such candidate, never a later one, and return success with no
diagnostics capture; a probe or action error on an earlier candidate is
swallowed (such candidates simply fail `hitCandidate`) and never propagated
(the functions are total, returning a plain pair). -/
theorem resolver_acts_on_earliest_candidate
    (cands : List CandidateBehavior) (d : String) (i : Nat)
    (hi : i < cands.length) (hhit : hitCandidate (cands.get ⟨i, hi⟩))
    (hmin : ∀ j (hj : j < i), ¬ hitCandidate (cands.get ⟨j, Nat.lt_trans hj hi⟩)) :
    clickFirstVisible cands d = (some i, []) ∧
    fillFirstVisible cands d = (some i, []) := by
  have h := resolveLoop_earliest cands i hi hhit hmin
  constructor
  · simp [clickFirstVisible, h]
  · simp [fillFirstVisible, h]

/-- Witness for C4: a list whose first candidate's probe raises, second is
visible but its click raises, third is visible and clickable — the resolver
acts on index 2. -/
theorem resolver_acts_on_earliest_candidate_witness :
    clickFirstVisible
      [⟨.error (), .ok ()⟩, ⟨.ok true, .error ()⟩, ⟨.ok true, .ok ()⟩]
      "로그인 버튼" = (some 2, []) := by
  exact (resolver_acts_on_earliest_candidate
    [⟨.error (), .ok ()⟩, ⟨.ok true, .error ()⟩, ⟨.ok true, .ok ()⟩]
    "로그인 버튼" 2 (by decide) (by decide) (by decide)).1

/-- C6: for every candidate list in which no candidate's probe reports a
visible element, both resolver functions return failure and request exactly
one diagnostics capture, labelled from the action's description
(`description.replace(' ', '_').lower()` plus the action suffix). -/
theorem resolver_failure_single_artifact
    (cands : List CandidateBehavior) (d : String)
    (h : ∀ c ∈ cands, c.probe ≠ .ok true) :
    clickFirstVisible cands d = (none, [sanitizeLabel d ++ "_click_error"]) ∧
    fillFirstVisible cands d = (none, [sanitizeLabel d ++ "_fill_error"]) ∧
    (clickFirstVisible cands d).2.length = 1 ∧
    (fillFirstVisible cands d).2.length = 1 := by
  have hn := resolveLoop_none_of_no_visible cands h
  refine ⟨?_, ?_, ?_, ?_⟩ <;>
    simp [clickFirstVisible, fillFirstVisible, hn]

/-- Witness for C6: two candidates, one probe raising and one reporting not
visible — failure plus exactly the one labelled capture. -/
theorem resolver_failure_single_artifact_witness :
    clickFirstVisible [⟨.error (), .ok ()⟩, ⟨.ok false, .ok ()⟩] "Export 버튼"
      = (none, [sanitizeLabel "Export 버튼" ++ "_click_error"]) := by
  exact (resolver_failure_single_artifact
    [⟨.error (), .ok ()⟩, ⟨.ok false, .ok ()⟩] "Export 버튼" (by decide)).1

/-!  ### Authenticator: security-challenge loop and success heuristic
(`login`, netsuite_export.py lines 135-281)

The challenge block (lines 205-256) iterates over the parsed candidate
answers.  Each iteration first re-reads the page URL and breaks if the
challenge marker is gone; otherwise it fills the answer field and clicks
submit through the Element Resolver (a failure of either skips to the next
answer without submitting), waits, re-reads the URL, and breaks when the
marker is gone. -/

/-- Python `"securityquestions" in url.lower()` (lines 205, 220, 252, 264). -/
def hasChallengeMarker (u : String) : Bool :=
  strContains (strToLower u) "securityquestions"

/-- Behaviour of one candidate answer's pass through the loop body: whether
the `_fill_first_visible` call on the answer field succeeded, whether the
`_click_first_visible` call on the submit control succeeded, and the page
URL observed after the submission and settle wait. -/
structure AnswerStep where
  fillOk : Bool
  submitOk : Bool
  urlAfter : String

/-- The `for attempt, answer in enumerate(answers)` loop of `login`
(lines 216-256), over the current page URL: final URL paired with the number
of challenge submissions performed. -/
def challengeLoop : String → List AnswerStep → String × Nat
  | u, [] => (u, 0)
  | u, step :: rest =>
    if hasChallengeMarker u then
      if step.fillOk then
        if step.submitOk then
          if hasChallengeMarker step.urlAfter then
            let r := challengeLoop step.urlAfter rest
            (r.1, r.2 + 1)
          else (step.urlAfter, 1)
        else challengeLoop u rest
      else challengeLoop u rest
    else (u, 0)

/-- URL classification for login success (lines 264-271): success when the
URL carries neither the login-page nor the challenge-page marker, or when it
is on the authenticated application host and not on a login path. -/
def loginSuccessHeuristic (u : String) : Bool :=
  (!(strContains (strToLower u) "customerlogin")
      && !(strContains (strToLower u) "securityquestions"))
    || (strContains u "app.netsuite.com" && !(strContains (strToLower u) "login"))

theorem challengeLoop_first_correct_at (steps : List AnswerStep) (u0 : String)
    (hu0 : hasChallengeMarker u0 = true)
    (hok : ∀ s ∈ steps, s.fillOk = true ∧ s.submitOk = true)
    (k : Nat) (hk : k < steps.length)
    (hcorr : hasChallengeMarker (steps.get ⟨k, hk⟩).urlAfter = false)
    (hbefore : ∀ j (hj : j < k),
      hasChallengeMarker (steps.get ⟨j, Nat.lt_trans hj hk⟩).urlAfter = true) :
    challengeLoop u0 steps = ((steps.get ⟨k, hk⟩).urlAfter, k + 1) := by
  induction steps generalizing u0 k with
  | nil => exact absurd hk (Nat.not_lt_zero k)
  | cons step rest ih =>
    obtain ⟨hfill, hsubmit⟩ := hok step (List.mem_cons_self step rest)
    cases k with
    | zero =>
      simp only [List.get] at hcorr
      simp [challengeLoop, hu0, hfill, hsubmit, hcorr]
    | succ k =>
      have h0 : hasChallengeMarker step.urlAfter = true := hbefore 0 (Nat.succ_pos k)
      have hrec := ih step.urlAfter h0
        (fun s hs => hok s (List.mem_cons_of_mem step hs))
        k (Nat.lt_of_succ_lt_succ hk) hcorr
        (fun j hj => hbefore (j + 1) (Nat.succ_lt_succ hj))
      simp [challengeLoop, hu0, hfill, hsubmit, h0, hrec]

theorem challengeLoop_all_wrong (steps : List AnswerStep) (u0 : String)
    (hu0 : hasChallengeMarker u0 = true)
    (hok : ∀ s ∈ steps, s.fillOk = true ∧ s.submitOk = true)
    (hwrong : ∀ s ∈ steps, hasChallengeMarker s.urlAfter = true) :
    (challengeLoop u0 steps).2 = steps.length ∧
    hasChallengeMarker (challengeLoop u0 steps).1 = true := by
  induction steps generalizing u0 with
  | nil => exact ⟨rfl, hu0⟩
  | cons step rest ih =>
    obtain ⟨hfill, hsubmit⟩ := hok step (List.mem_cons_self step rest)
    have h0 : hasChallengeMarker step.urlAfter = true :=
      hwrong step (List.mem_cons_self step rest)
    have hrec := ih step.urlAfter h0
      (fun s hs => hok s (List.mem_cons_of_mem step hs))
      (fun s hs => hwrong s (List.mem_cons_of_mem step hs))
    simp only [challengeLoop, hu0, hfill, hsubmit, h0, if_true]
    exact ⟨by simp [hrec.1], hrec.2⟩

/-- C3: in the challenge loop over `N` candidate answers, each fillable and
submittable, (a) if every answer before index `k` leaves the page on the
challenge URL and answer `k` leaves it, exactly `k + 1` submissions occur
and the loop halts immediately with the post-success URL; (b) if every
answer leaves the page on the challenge URL, exactly `N` submissions occur,
the final URL still carries the challenge marker, and — the challenge pages
of the login flow not being on the authenticated `app.netsuite.com` host —
the success heuristic then classifies the login as failed. -/
theorem challenge_loop_attempt_counts (steps : List AnswerStep) (u0 : String)
    (hu0 : hasChallengeMarker u0 = true)
    (hok : ∀ s ∈ steps, s.fillOk = true ∧ s.submitOk = true) :
    (∀ k (hk : k < steps.length),
      hasChallengeMarker (steps.get ⟨k, hk⟩).urlAfter = false →
      (∀ j (hj : j < k),
        hasChallengeMarker (steps.get ⟨j, Nat.lt_trans hj hk⟩).urlAfter = true) →
      challengeLoop u0 steps = ((steps.get ⟨k, hk⟩).urlAfter, k + 1)) ∧
    ((∀ s ∈ steps, hasChallengeMarker s.urlAfter = true) →
      (challengeLoop u0 steps).2 = steps.length ∧
      (strContains (challengeLoop u0 steps).1 "app.netsuite.com" = false →
        loginSuccessHeuristic (challengeLoop u0 steps).1 = false)) := by
  constructor
  · intro k hk hcorr hbefore
    exact challengeLoop_first_correct_at steps u0 hu0 hok k hk hcorr hbefore
  · intro hwrong
    obtain ⟨hlen, hmark⟩ := challengeLoop_all_wrong steps u0 hu0 hok hwrong
    refine ⟨hlen, fun happ => ?_⟩
    unfold hasChallengeMarker at hmark
    simp [loginSuccessHeuristic, hmark, happ]

/-- Witness for C3: a concrete challenge page and two fillable, submittable
answers — the first wrong, the second correct — yield exactly two
submissions and an immediate halt on the post-success URL. -/
theorem challenge_loop_attempt_counts_witness :
    challengeLoop "https://system.netsuite.com/app/login/securityquestions.nl"
      [⟨true, true, "https://system.netsuite.com/app/login/securityquestions.nl?retry=1"⟩,
       ⟨true, true, "https://abc.app.netsuite.com/app/center/card.nl"⟩]
      = ("https://abc.app.netsuite.com/app/center/card.nl", 2) :=
  (challenge_loop_attempt_counts
    [⟨true, true, "https://system.netsuite.com/app/login/securityquestions.nl?retry=1"⟩,
     ⟨true, true, "https://abc.app.netsuite.com/app/center/card.nl"⟩]
    "https://system.netsuite.com/app/login/securityquestions.nl"
    (by decide) (by decide)).1 1 (by decide) (by decide) (by decide)

/-!  ### Export Engine (`export_report`, `export_saved_search_results`,
`_find_latest_downloaded_file`, netsuite_export.py lines 293-470) -/

/-- Behaviour of one strategy-1 export selector of
`export_saved_search_results` (lines 327-341): the `locator.count() > 0`
presence check (which can raise), and the click-while-awaiting-download plus
`save_as`, yielding the download's suggested filename (a click failure,
download timeout or save failure raises, and is caught by the per-selector
`except`). -/
structure SelProbe where
  present : Except Unit Bool
  download : Except String String

/-- Strategy 1 of the saved-search path: the first selector present on the
page whose click yields a saved download wins (lines 326-341). -/
def strat1Loop (downloadDir : String) : List SelProbe → Option String
  | [] => none
  | s :: rest =>
    match s.present with
    | .ok true =>
      match s.download with
      | .ok fname => some (downloadDir ++ "/" ++ fname)
      | .error _ => strat1Loop downloadDir rest
    | .ok false => strat1Loop downloadDir rest
    | .error _ => strat1Loop downloadDir rest

/-- Python `max(files, key=os.path.getctime)` over a nonempty list: keeps
the earliest element among those of maximal creation time (later elements
replace the best only on strictly greater time). -/
def maxByCtime : String × Nat → List (String × Nat) → String × Nat
  | best, [] => best
  | best, f :: rest => maxByCtime (if f.2 > best.2 then f else best) rest

/-- The accepted tabular extensions of `_find_latest_downloaded_file`'s
three glob patterns. -/
def acceptedExt (path : String) : Bool :=
  strEndsWith path ".csv" || strEndsWith path ".xlsx" || strEndsWith path ".xls"

/-- The concatenation `csv_files + xlsx_files + xls_files` of the three
glob scans (lines 384-387), over a directory listing of
(path, creation time) pairs. -/
def globAccepted (files : List (String × Nat)) : List (String × Nat) :=
  files.filter (fun f => strEndsWith f.1 ".csv")
    ++ files.filter (fun f => strEndsWith f.1 ".xlsx")
    ++ files.filter (fun f => strEndsWith f.1 ".xls")

/-- Function `_find_latest_downloaded_file` (lines 380-393): most recently created
file among the accepted extensions, `None` when there is none. -/
def findLatestDownloadedFile (files : List (String × Nat)) : Option String :=
  match globAccepted files with
  | [] => none
  | f :: rest => some (maxByCtime f rest).1

/-- Environment of one `export_saved_search_results` call: outcomes of the
navigation, the strategy-1 selectors, the strategy-2 script-triggered
download (its error message is inspected for "Download is starting", which
only adds a wait), and the download-directory listing observed by the
strategy-3 scan. -/
structure SavedSearchEnv where
  gotoResult : Except Unit Unit
  selectors : List SelProbe
  jsDownload : Except String String
  dirFiles : List (String × Nat)

/-- The `export_saved_search_results` body without its outer `try/except`
(lines 303-373): `Except`-level result — an uncaught exception is `.error`
— paired with the diagnostics captures requested. -/
def exportSavedSearchRun (downloadDir : String) (env : SavedSearchEnv) :
    Except Unit (Option String) × List String :=
  match env.gotoResult with
  | .error e => (.error e, [])
  | .ok _ =>
    match strat1Loop downloadDir env.selectors with
    | some p => (.ok (some p), ["search_page"])
    | none =>
      match env.jsDownload with
      | .ok fname => (.ok (some (downloadDir ++ "/" ++ fname)), ["search_page"])
      | .error _ =>
        match findLatestDownloadedFile env.dirFiles with
        | some p => (.ok (some p), ["search_page"])
        | none => (.ok none, ["search_page", "export_not_found"])

/-- Function `export_saved_search_results` (lines 293-378): the body wrapped in the
outer `try/except`, which converts any uncaught error into `None` plus an
`export_error` capture.  `searchUrl` is the target (the `goto`
destination); its page behaviour is the environment. -/
def exportSavedSearchResults (downloadDir searchUrl : String)
    (env : SavedSearchEnv) : Option String × List String :=
  match exportSavedSearchRun downloadDir env with
  | (.ok r, caps) => (r, caps)
  | (.error _, caps) => (none, caps ++ ["export_error"])

/-- Behaviour of one standard-report export selector (lines 429-437):
presence check (`count() > 0`, can raise) and the click (can raise, caught
per selector). -/
structure ReportSelProbe where
  present : Except Unit Bool
  click : Except Unit Unit

/-- The standard-report selector loop setting `export_clicked`
(lines 428-437). -/
def reportClickLoop : List ReportSelProbe → Bool
  | [] => false
  | s :: rest =>
    match s.present with
    | .ok true =>
      match s.click with
      | .ok _ => true
      | .error _ => reportClickLoop rest
    | .ok false => reportClickLoop rest
    | .error _ => reportClickLoop rest

/-- Environment of one standard-report `export_report` call: the
navigation, the export-affordance selectors, the menu-open + Excel
sub-item fallback chain (lines 439-446, caught by `except: pass`), and the
awaited download with its best-effort extra Excel click and `save_as`
(lines 453-462, a timeout raises to the outer handler). -/
structure ReportEnv where
  gotoResult : Except Unit Unit
  selectors : List ReportSelProbe
  menuFallback : Except Unit Unit
  download : Except Unit String

/-- The standard-report path of `export_report` without its outer
`try/except` (lines 411-465). -/
def exportReportStdRun (downloadDir : String) (env : ReportEnv) :
    Except Unit (Option String) × List String :=
  match env.gotoResult with
  | .error e => (.error e, [])
  | .ok _ =>
    if (if reportClickLoop env.selectors then true
        else match env.menuFallback with
          | .ok _ => true
          | .error _ => false) then
      match env.download with
      | .ok fname => (.ok (some (downloadDir ++ "/" ++ fname)), [])
      | .error e => (.error e, [])
    else (.ok none, ["export_not_found"])

/-- The standard-report path with its outer `try/except` (lines 411-470). -/
def exportReportStd (downloadDir : String) (env : ReportEnv) :
    Option String × List String :=
  match exportReportStdRun downloadDir env with
  | (.ok r, caps) => (r, caps)
  | (.error _, caps) => (none, caps ++ ["export_error"])

/-- URL-shape dispatch of `export_report` (line 407). -/
def isSavedSearchUrl (u : String) : Bool :=
  strContains u "searchresults.nl" || strContains u "searchid="

/-- Function `export_report` (lines 395-470): dispatch on the URL shape, then the
saved-search path or the standard-report path. -/
def exportReport (downloadDir reportUrl : String) (ssEnv : SavedSearchEnv)
    (rEnv : ReportEnv) : Option String × List String :=
  if isSavedSearchUrl reportUrl then
    exportSavedSearchResults downloadDir reportUrl ssEnv
  else exportReportStd downloadDir rEnv

theorem maxByCtime_mem (l : List (String × Nat)) (b : String × Nat) :
    maxByCtime b l ∈ b :: l := by
  induction l generalizing b with
  | nil => exact List.mem_singleton.mpr rfl
  | cons f rest ih =>
    simp only [maxByCtime]
    have h := ih (if f.2 > b.2 then f else b)
    rcases List.mem_cons.mp h with h1 | h1
    · rw [h1]
      by_cases hf : f.2 > b.2
      · rw [if_pos hf]
        exact List.mem_cons.mpr (Or.inr (List.mem_cons_self f rest))
      · rw [if_neg hf]
        exact List.mem_cons_self b _
    · exact List.mem_cons.mpr (Or.inr (List.mem_cons.mpr (Or.inr h1)))

theorem maxByCtime_ge (l : List (String × Nat)) (b : String × Nat) :
    ∀ x ∈ b :: l, x.2 ≤ (maxByCtime b l).2 := by
  induction l generalizing b with
  | nil =>
    intro x hx
    rw [List.mem_singleton.mp hx]
    exact Nat.le_refl _
  | cons f rest ih =>
    intro x hx
    simp only [maxByCtime]
    have hble : b.2 ≤ (if f.2 > b.2 then f else b).2 := by
      by_cases hf : f.2 > b.2
      · rw [if_pos hf]; exact Nat.le_of_lt hf
      · rw [if_neg hf]
    have hfle : f.2 ≤ (if f.2 > b.2 then f else b).2 := by
      by_cases hf : f.2 > b.2
      · rw [if_pos hf]
      · rw [if_neg hf]; exact Nat.le_of_not_lt hf
    have hbest := ih (if f.2 > b.2 then f else b)
      (if f.2 > b.2 then f else b) (List.mem_cons_self _ _)
    rcases List.mem_cons.mp hx with h1 | h1
    · rw [h1]
      exact Nat.le_trans hble hbest
    · rcases List.mem_cons.mp h1 with h2 | h2
      · rw [h2]
        exact Nat.le_trans hfle hbest
      · exact ih (if f.2 > b.2 then f else b) x (List.mem_cons.mpr (Or.inr h2))

theorem globAccepted_mem_iff (files : List (String × Nat)) (x : String × Nat) :
    x ∈ globAccepted files ↔ x ∈ files ∧ acceptedExt x.1 = true := by
  simp only [globAccepted, acceptedExt, List.mem_append, List.mem_filter,
    Bool.or_eq_true]
  tauto

theorem findLatest_none_iff (files : List (String × Nat)) :
    findLatestDownloadedFile files = none ↔
      ∀ f ∈ files, acceptedExt f.1 = false := by
  unfold findLatestDownloadedFile
  constructor
  · intro h f hf
    match hg : globAccepted files with
    | [] =>
      by_contra hacc
      have : f ∈ globAccepted files :=
        (globAccepted_mem_iff files f).mpr ⟨hf, Bool.not_eq_false _ ▸ hacc⟩
      rw [hg] at this
      exact absurd this (List.not_mem_nil f)
    | g :: rest => rw [hg] at h; exact absurd h (by simp)
  · intro h
    match hg : globAccepted files with
    | [] => rfl
    | g :: rest =>
      have : g ∈ globAccepted files := by rw [hg]; exact List.mem_cons_self g rest
      obtain ⟨hmem, hacc⟩ := (globAccepted_mem_iff files g).mp this
      rw [h g hmem] at hacc
      exact absurd hacc (by simp)

theorem findLatest_some_spec (files : List (String × Nat)) (p : String)
    (h : findLatestDownloadedFile files = some p) :
    ∃ t, (p, t) ∈ files ∧ acceptedExt p = true ∧
      ∀ g ∈ files, acceptedExt g.1 = true → g.2 ≤ t := by
  unfold findLatestDownloadedFile at h
  match hg : globAccepted files with
  | [] => rw [hg] at h; exact absurd h (by simp)
  | f :: rest =>
    rw [hg] at h
    have hp : (maxByCtime f rest).1 = p := by
      simpa using h
    have hmem : maxByCtime f rest ∈ globAccepted files := by
      rw [hg]; exact maxByCtime_mem rest f
    obtain ⟨hfiles, hacc⟩ := (globAccepted_mem_iff files _).mp hmem
    refine ⟨(maxByCtime f rest).2, ?_, ?_, ?_⟩
    · rw [← hp]; exact hfiles
    · rw [← hp]; exact hacc
    · intro g hgmem hgacc
      have : g ∈ globAccepted files :=
        (globAccepted_mem_iff files g).mpr ⟨hgmem, hgacc⟩
      rw [hg] at this
      exact maxByCtime_ge rest f g this

/-- Shared shape of the saved-search path when strategies 1 and 2 both
fail: the result is the filesystem fallback's answer. -/
theorem exportSavedSearch_fallback_eq (downloadDir searchUrl : String)
    (env : SavedSearchEnv) (hg : env.gotoResult = .ok ())
    (h1 : strat1Loop downloadDir env.selectors = none)
    (m : String) (hj : env.jsDownload = .error m) :
    (exportSavedSearchResults downloadDir searchUrl env).1 =
      findLatestDownloadedFile env.dirFiles := by
  unfold exportSavedSearchResults exportSavedSearchRun
  rw [hg, h1, hj]
  match hf : findLatestDownloadedFile env.dirFiles with
  | some p => simp
  | none => simp

/-- C5: on the saved-search path, when strategy 1 (every selector fails to
yield a download) and strategy 2 (the script-triggered download raises)
both fail, the result is the filesystem fallback's answer, which is `none`
exactly when the download directory holds no file with extension csv, xlsx
or xls, and otherwise a file with an accepted extension whose creation time
is maximal among all accepted files in the directory. -/
theorem saved_search_filesystem_fallback (downloadDir searchUrl : String)
    (env : SavedSearchEnv) (hg : env.gotoResult = .ok ())
    (h1 : strat1Loop downloadDir env.selectors = none)
    (m : String) (hj : env.jsDownload = .error m) :
    (exportSavedSearchResults downloadDir searchUrl env).1 =
      findLatestDownloadedFile env.dirFiles ∧
    (findLatestDownloadedFile env.dirFiles = none ↔
      ∀ f ∈ env.dirFiles, acceptedExt f.1 = false) ∧
    (∀ p, findLatestDownloadedFile env.dirFiles = some p →
      ∃ t, (p, t) ∈ env.dirFiles ∧ acceptedExt p = true ∧
        ∀ g ∈ env.dirFiles, acceptedExt g.1 = true → g.2 ≤ t) :=
  ⟨exportSavedSearch_fallback_eq downloadDir searchUrl env hg h1 m hj,
   findLatest_none_iff env.dirFiles,
   fun p hp => findLatest_some_spec env.dirFiles p hp⟩

/-- Witness for C5: strategies 1 and 2 fail and the directory holds
`a.csv` (ctime 5), `b.xlsx` (ctime 9) and a non-tabular `page.html`
(ctime 50): the fallback returns `b.xlsx`. -/
theorem saved_search_filesystem_fallback_witness :
    (exportSavedSearchResults "downloads" "https://x/app/common/search/searchresults.nl"
      ⟨.ok (), [⟨.ok false, .error "x"⟩], .error "Download is starting",
        [("downloads/a.csv", 5), ("downloads/b.xlsx", 9), ("downloads/page.html", 50)]⟩).1
      = some "downloads/b.xlsx" := by
  have h := (saved_search_filesystem_fallback "downloads"
    "https://x/app/common/search/searchresults.nl"
    ⟨.ok (), [⟨.ok false, .error "x"⟩], .error "Download is starting",
      [("downloads/a.csv", 5), ("downloads/b.xlsx", 9), ("downloads/page.html", 50)]⟩
    rfl rfl "Download is starting" rfl).1
  rw [h]
  decide

/-- C2: for every target URL and environment, the Export Engine never lets
an exception escape: whenever the body of `export_saved_search_results` or
of the standard-report path raises, the outer handler converts it into an
absent result plus an `export_error` diagnostics capture; and on every
absent result of `export_report` a diagnostics capture (`export_not_found`
or `export_error`) was produced, so the caller can interpret absence as
per-target failure. -/
theorem export_engine_catches_all (downloadDir reportUrl : String)
    (ssEnv : SavedSearchEnv) (rEnv : ReportEnv) :
    (∀ e caps, exportSavedSearchRun downloadDir ssEnv = (.error e, caps) →
      exportSavedSearchResults downloadDir reportUrl ssEnv
        = (none, caps ++ ["export_error"])) ∧
    (∀ e caps, exportReportStdRun downloadDir rEnv = (.error e, caps) →
      exportReportStd downloadDir rEnv = (none, caps ++ ["export_error"])) ∧
    ((exportReport downloadDir reportUrl ssEnv rEnv).1 = none →
      "export_not_found" ∈ (exportReport downloadDir reportUrl ssEnv rEnv).2 ∨
      "export_error" ∈ (exportReport downloadDir reportUrl ssEnv rEnv).2) := by
  refine ⟨?_, ?_, ?_⟩
  · intro e caps h
    unfold exportSavedSearchResults
    rw [h]
  · intro e caps h
    unfold exportReportStd
    rw [h]
  · intro habs
    unfold exportReport at habs ⊢
    by_cases hd : isSavedSearchUrl reportUrl
    · rw [if_pos hd] at habs ⊢
      obtain ⟨g, sels, js, dir⟩ := ssEnv
      cases g with
      | error e => simp [exportSavedSearchResults, exportSavedSearchRun]
      | ok u =>
        cases h1 : strat1Loop downloadDir sels with
        | some p =>
          simp [exportSavedSearchResults, exportSavedSearchRun, h1] at habs
        | none =>
          cases js with
          | ok fname =>
            simp [exportSavedSearchResults, exportSavedSearchRun, h1] at habs
          | error m =>
            cases hf : findLatestDownloadedFile dir with
            | some p =>
              simp [exportSavedSearchResults, exportSavedSearchRun, h1, hf] at habs
            | none =>
              simp [exportSavedSearchResults, exportSavedSearchRun, h1, hf]
    · rw [if_neg hd] at habs ⊢
      obtain ⟨g, sels, menu, dl⟩ := rEnv
      cases g with
      | error e => simp [exportReportStd, exportReportStdRun]
      | ok u =>
        cases hc : reportClickLoop sels with
        | true =>
          cases dl with
          | ok fname => simp [exportReportStd, exportReportStdRun, hc] at habs
          | error e => simp [exportReportStd, exportReportStdRun, hc]
        | false =>
          cases menu with
          | ok mu =>
            cases dl with
            | ok fname => simp [exportReportStd, exportReportStdRun, hc] at habs
            | error e => simp [exportReportStd, exportReportStdRun, hc]
          | error me => simp [exportReportStd, exportReportStdRun, hc]

/-- Witness for C2: a saved-search target whose navigation raises is
converted into an absent result plus the `export_error` capture. -/
theorem export_engine_catches_all_witness :
    exportSavedSearchResults "downloads"
      "https://x/app/common/search/searchresults.nl?searchid=42"
      ⟨.error (), [], .error "x", []⟩ = (none, ["export_error"]) := by
  exact (export_engine_catches_all "downloads"
    "https://x/app/common/search/searchresults.nl?searchid=42"
    ⟨.error (), [], .error "x", []⟩ ⟨.ok (), [], .error (), .ok "f.xlsx"⟩).1
    () [] rfl

/-- C8: the filesystem fallback's answer does not depend on which target is
being exported: two saved-search export attempts against different target
URLs whose strategies 1 and 2 both fail return the same path whenever the
download-directory listing is the same — and whenever that directory holds
any file with an accepted tabular extension, the actually-failed export
still reports a path (a file downloaded for an earlier target, or any
pre-existing tabular file, is returned as this target's outcome). -/
theorem fallback_independent_of_target (downloadDir u1 u2 : String)
    (e1 e2 : SavedSearchEnv)
    (hg1 : e1.gotoResult = .ok ()) (hg2 : e2.gotoResult = .ok ())
    (h11 : strat1Loop downloadDir e1.selectors = none)
    (h12 : strat1Loop downloadDir e2.selectors = none)
    (m1 m2 : String)
    (hj1 : e1.jsDownload = .error m1) (hj2 : e2.jsDownload = .error m2)
    (hdir : e1.dirFiles = e2.dirFiles) :
    (exportSavedSearchResults downloadDir u1 e1).1 =
      (exportSavedSearchResults downloadDir u2 e2).1 ∧
    (∀ f ∈ e1.dirFiles, acceptedExt f.1 = true →
      (exportSavedSearchResults downloadDir u1 e1).1 ≠ none) := by
  have h1 := exportSavedSearch_fallback_eq downloadDir u1 e1 hg1 h11 m1 hj1
  have h2 := exportSavedSearch_fallback_eq downloadDir u2 e2 hg2 h12 m2 hj2
  constructor
  · rw [h1, h2, hdir]
  · intro f hf hacc habs
    rw [h1] at habs
    have := (findLatest_none_iff e1.dirFiles).mp habs f hf
    rw [hacc] at this
    exact absurd this (by simp)

/-- Witness for C8: two failed attempts against different saved-search
URLs over the same directory listing (holding a single stale `old.csv`)
both return `old.csv`. -/
theorem fallback_independent_of_target_witness :
    (exportSavedSearchResults "downloads" "https://x/searchresults.nl?searchid=1"
      ⟨.ok (), [], .error "t1", [("downloads/old.csv", 3)]⟩).1 =
    (exportSavedSearchResults "downloads" "https://x/searchresults.nl?searchid=2"
      ⟨.ok (), [⟨.ok false, .error "y"⟩], .error "t2", [("downloads/old.csv", 3)]⟩).1 :=
  (fallback_independent_of_target "downloads"
    "https://x/searchresults.nl?searchid=1" "https://x/searchresults.nl?searchid=2"
    ⟨.ok (), [], .error "t1", [("downloads/old.csv", 3)]⟩
    ⟨.ok (), [⟨.ok false, .error "y"⟩], .error "t2", [("downloads/old.csv", 3)]⟩
    rfl rfl rfl rfl "t1" "t2" rfl rfl rfl).1

/-!  ### Session Controller (`download_netsuite_reports`,
netsuite_export.py lines 536-589, and `process_reports`, main.py
lines 48-198)

Both controllers start the browser, log in once (a login failure raises
`Exception("NetSuite 로그인 실패")`), run the per-target loop, and invoke
`exporter.close()` in a `finally` block on every exit path.
`download_netsuite_reports` collects outcomes into a dict keyed by report
URL; `process_reports` appends one `ProcessResult` per report to a list.
The configuration/credential glue of `process_reports` (main.py lines
72-98) is outside the modelled core. -/

/-- Python dict insertion (`results[url] = value`): an existing key is
overwritten in place, a new key is appended (Python dicts preserve
insertion order). -/
def dictInsert (d : List (String × Option String)) (k : String)
    (v : Option String) : List (String × Option String) :=
  if d.any (fun p => p.1 = k) then
    d.map (fun p => if p.1 = k then (k, v) else p)
  else d ++ [(k, v)]

/-- Environment of one `download_netsuite_reports` run: the `start_browser`
outcome (it re-raises its failure), whether `login()` returned `True`, and
the outcome of the `i`-th `export_report` call (an `Except`, since the loop
body wraps the call in `try/except`). -/
structure BatchEnv where
  startResult : Except String Unit
  loginOk : Bool
  exportAt : Nat → Except Unit (Option String)

/-- Observable result of a Session Controller run: the returned value or
the propagated batch-level error, the number of per-target export calls
made, and whether `close()` ran (the `finally` block). -/
structure BatchRun (α : Type) where
  outcome : Except String α
  exportsAttempted : Nat
  closed : Bool

deriving instance DecidableEq for BatchRun

/-- The per-URL loop of `download_netsuite_reports` (lines 573-584): each
URL's export outcome is written into the `results` dict; an exception from
`export_report` is caught and recorded as `None`. -/
def downloadLoop (env : BatchEnv) : List String → Nat →
    List (String × Option String) → List (String × Option String)
  | [], _, results => results
  | url :: rest, i, results =>
    match env.exportAt i with
    | .ok fp => downloadLoop env rest (i + 1) (dictInsert results url fp)
    | .error _ => downloadLoop env rest (i + 1) (dictInsert results url none)

/-- Function `download_netsuite_reports` (lines 536-589). -/
def downloadNetsuiteReports (urls : List String) (env : BatchEnv) :
    BatchRun (List (String × Option String)) :=
  match env.startResult with
  | .error msg => ⟨.error msg, 0, true⟩
  | .ok _ =>
    if env.loginOk then ⟨.ok (downloadLoop env urls 0 []), urls.length, true⟩
    else ⟨.error "NetSuite 로그인 실패", 0, true⟩

/-- The fields of a `ReportConfig` that `process_reports` consumes for the
export itself. -/
structure ReportCfg where
  name : String
  netsuiteUrl : String

deriving instance DecidableEq for ReportCfg

/-- Dataclass `ProcessResult` (main.py lines 38-45). -/
structure ProcessResult where
  reportName : String
  downloadSuccess : Bool
  uploadSuccess : Bool
  filePath : Option String
  error : Option String

deriving instance DecidableEq for ProcessResult

/-- Environment of one report's pass through the `process_reports` loop:
the `export_report` outcome and the upload outcome, each possibly raising
(the `update_sync_status` calls catch all their errors internally and
return a boolean, so they cannot alter control flow). -/
structure PerReportEnv where
  exportResult : Except String (Option String)
  uploadResult : Except String Bool

/-- One iteration of the `process_reports` per-report loop (main.py lines
108-193): download, then upload, recording successes, the file path and
the error text; every branch appends exactly one `ProcessResult`. -/
def processOne (r : ReportCfg) (e : PerReportEnv) : ProcessResult :=
  match e.exportResult with
  | .error msg => ⟨r.name, false, false, none, some msg⟩
  | .ok none => ⟨r.name, false, false, none, some "Export 실패"⟩
  | .ok (some fp) =>
    match e.uploadResult with
    | .error msg => ⟨r.name, true, false, some fp, some msg⟩
    | .ok true => ⟨r.name, true, true, some fp, none⟩
    | .ok false => ⟨r.name, true, false, some fp, some "업로드 실패"⟩

/-- The `for i, report in enumerate(reports, 1)` loop of
`process_reports`. -/
def processLoop (env : Nat → PerReportEnv) : List ReportCfg → Nat →
    List ProcessResult
  | [], _ => []
  | r :: rest, i => processOne r (env i) :: processLoop env rest (i + 1)

/-- Function `process_reports` (main.py lines 48-198): an empty report list returns
`[]` before any browser work; otherwise start browser, one login (failure
raises), the per-report loop, and `close()` in `finally`. -/
def processReports (reports : List ReportCfg) (startResult : Except String Unit)
    (loginOk : Bool) (env : Nat → PerReportEnv) : BatchRun (List ProcessResult) :=
  if reports.isEmpty then ⟨.ok [], 0, false⟩
  else
    match startResult with
    | .error msg => ⟨.error msg, 0, true⟩
    | .ok _ =>
      if loginOk then ⟨.ok (processLoop env reports 0), reports.length, true⟩
      else ⟨.error "NetSuite 로그인 실패", 0, true⟩

theorem processLoop_length (env : Nat → PerReportEnv) (reports : List ReportCfg)
    (i0 : Nat) : (processLoop env reports i0).length = reports.length := by
  induction reports generalizing i0 with
  | nil => rfl
  | cons r rest ih => simp [processLoop, ih]

theorem processLoop_get? (env : Nat → PerReportEnv) (reports : List ReportCfg)
    (i0 i : Nat) :
    (processLoop env reports i0).get? i
      = (reports.get? i).map (fun r => processOne r (env (i0 + i))) := by
  induction reports generalizing i0 i with
  | nil => simp [processLoop]
  | cons r rest ih =>
    cases i with
    | zero => simp [processLoop]
    | succ i =>
      simp only [processLoop, List.get?]
      rw [ih (i0 + 1) i]
      have : i0 + 1 + i = i0 + (i + 1) := by omega
      rw [this]

/-- C1 counterexample: `download_netsuite_reports` keys its outcome dict by
URL, so a batch of 2 targets sharing one URL yields a single merged entry
(the later target's result overwrites the earlier one's): 2 input targets,
1 outcome. -/
theorem duplicate_url_targets_merge :
    (downloadNetsuiteReports
        ["https://x/searchresults.nl?searchid=7",
         "https://x/searchresults.nl?searchid=7"]
        ⟨.ok (), true,
          fun i => .ok (some (if i = 0 then "downloads/a.xlsx" else "downloads/b.xlsx"))⟩).outcome
      = .ok [("https://x/searchresults.nl?searchid=7", some "downloads/b.xlsx")] ∧
    ["https://x/searchresults.nl?searchid=7",
     "https://x/searchresults.nl?searchid=7"].length = 2 := by
  exact ⟨by decide, by decide⟩

/-- C1 (amended): with the browser started and login succeeded,
`process_reports` produces exactly one `ProcessResult` per input report, in
input order — the `i`-th outcome is computed from the `i`-th report and its
own per-report environment alone, so one target's export failure never
removes, reorders or merges sibling outcomes, and two targets with the
same URL keep two separate outcomes.  (`download_netsuite_reports` keys its
result dict by URL, so there the per-target correspondence holds only for
distinct URLs; see the counterexample.) -/
theorem process_reports_one_outcome_per_target (reports : List ReportCfg)
    (env : Nat → PerReportEnv) (hne : reports.isEmpty = false) :
    (processReports reports (.ok ()) true env).outcome
      = .ok (processLoop env reports 0) ∧
    (processLoop env reports 0).length = reports.length ∧
    (∀ i, (processLoop env reports 0).get? i
      = (reports.get? i).map (fun r => processOne r (env i))) := by
  refine ⟨?_, processLoop_length env reports 0, fun i => ?_⟩
  · simp [processReports, hne]
  · have h := processLoop_get? env reports 0 i
    simpa using h

/-- Witness for C1 (amended): three reports where the middle export fails —
three outcomes in input order, the middle one marked failed. -/
theorem process_reports_one_outcome_per_target_witness :
    (processReports
        [⟨"r1", "https://x/1"⟩, ⟨"r2", "https://x/1"⟩, ⟨"r3", "https://x/3"⟩]
        (.ok ()) true
        (fun i => if i = 1 then ⟨.ok none, .ok true⟩
                  else ⟨.ok (some "downloads/f.xlsx"), .ok true⟩)).outcome
      = .ok [⟨"r1", true, true, some "downloads/f.xlsx", none⟩,
             ⟨"r2", false, false, none, some "Export 실패"⟩,
             ⟨"r3", true, true, some "downloads/f.xlsx", none⟩] := by
  have h := (process_reports_one_outcome_per_target
    [⟨"r1", "https://x/1"⟩, ⟨"r2", "https://x/1"⟩, ⟨"r3", "https://x/3"⟩]
    (fun i => if i = 1 then ⟨.ok none, .ok true⟩
              else ⟨.ok (some "downloads/f.xlsx"), .ok true⟩)
    (by decide)).1
  rw [h]
  decide

/-- C7: a login failure (browser started, `login()` returned `False`)
yields zero outcomes in both Session Controllers: the batch-level
`"NetSuite 로그인 실패"` error is raised — distinct from a per-target export
failure, which is recorded inside a returned `.ok` outcome list — no export
is attempted, and `close()` still runs on that exit path. -/
theorem login_failure_fatal_and_cleanup (urls : List String) (env : BatchEnv)
    (reports : List ReportCfg) (penv : Nat → PerReportEnv)
    (hstart : env.startResult = .ok ()) (hlogin : env.loginOk = false)
    (hne : reports.isEmpty = false) :
    downloadNetsuiteReports urls env
      = ⟨.error "NetSuite 로그인 실패", 0, true⟩ ∧
    processReports reports (.ok ()) false penv
      = ⟨.error "NetSuite 로그인 실패", 0, true⟩ ∧
    (∀ env2 : BatchEnv, env2.startResult = .ok () → env2.loginOk = true →
      (downloadNetsuiteReports urls env2).outcome
        = .ok (downloadLoop env2 urls 0 [])) := by
  refine ⟨?_, ?_, fun env2 h2s h2l => ?_⟩
  · simp [downloadNetsuiteReports, hstart, hlogin]
  · simp [processReports, hne]
  · simp [downloadNetsuiteReports, h2s, h2l]

/-- Witness for C7: one concrete target, login failed — error raised, no
outcome, browser closed. -/
theorem login_failure_fatal_and_cleanup_witness :
    downloadNetsuiteReports ["https://x/searchresults.nl?searchid=7"]
        ⟨.ok (), false, fun _ => .ok none⟩
      = ⟨.error "NetSuite 로그인 실패", 0, true⟩ :=
  (login_failure_fatal_and_cleanup ["https://x/searchresults.nl?searchid=7"]
    ⟨.ok (), false, fun _ => .ok none⟩ [⟨"r", "u"⟩] (fun _ => ⟨.ok none, .ok true⟩)
    rfl rfl (by decide)).1

/-!  ### Session lifecycle: `__init__` handle initialisation (lines 58-60),
`start_browser` (lines 63-87) and `close` (lines 485-491) -/

/-- The browser/automation handles of a `NetSuiteExporter`. -/
structure ExporterHandles where
  browser : Option Unit
  playwright : Option Unit

deriving instance DecidableEq for ExporterHandles

/-- Handle state set by `__init__` (lines 58-60): nothing started. -/
def initHandles : ExporterHandles := ⟨none, none⟩

/-- The two teardown operations `close()` can invoke. -/
inductive CloseOp where
  | browserClose
  | playwrightStop

deriving instance DecidableEq for CloseOp

/-- The operations `close()` (lines 485-491) invokes on a handle state:
each teardown call is guarded by its handle being set. -/
def closeOps (s : ExporterHandles) : List CloseOp :=
  (if s.browser.isSome then [CloseOp.browserClose] else [])
    ++ (if s.playwright.isSome then [CloseOp.playwrightStop] else [])

/-- Method `close()` as an `Except`-level run, given the outcomes the two teardown
calls would have if invoked. -/
def closeRun (s : ExporterHandles)
    (browserCloseRes playStopRes : Except Unit Unit) : Except Unit Unit :=
  match (if s.browser.isSome then browserCloseRes else .ok ()) with
  | .error e => .error e
  | .ok _ => if s.playwright.isSome then playStopRes else .ok ()

/-- Method `start_browser` (lines 63-87) over the outcomes of its three stages
(`sync_playwright().start()`, `chromium.launch`, context/page creation):
the handle assignments happen in that order, so a failure leaves exactly
the earlier handles set, and the exception is re-raised (line 87). -/
def startBrowser (pwStart launch ctx : Except Unit Unit) :
    ExporterHandles × Except Unit Unit :=
  match pwStart with
  | .error e => (⟨none, none⟩, .error e)
  | .ok _ =>
    match launch with
    | .error e => (⟨none, some ()⟩, .error e)
    | .ok _ =>
      match ctx with
      | .error e => (⟨some (), some ()⟩, .error e)
      | .ok _ => (⟨some (), some ()⟩, .ok ())

/-- C10: `close()` is safe when `start_browser` was never invoked or failed
at its first stage: on the `__init__` handle state it invokes no teardown
operation and returns without error whatever the would-be outcomes of the
teardown calls are; in general each teardown call is made only when its
handle is non-`None`. -/
theorem close_safe_on_never_started :
    (∀ bres pres, closeRun initHandles bres pres = .ok ()) ∧
    closeOps initHandles = [] ∧
    (∀ s, CloseOp.browserClose ∈ closeOps s → s.browser.isSome = true) ∧
    (∀ s, CloseOp.playwrightStop ∈ closeOps s → s.playwright.isSome = true) ∧
    (∀ launch ctx bres pres,
      closeRun (startBrowser (.error ()) launch ctx).1 bres pres = .ok ()) := by
  refine ⟨fun bres pres => rfl, rfl, ?_, ?_, fun launch ctx bres pres => rfl⟩
  · intro s h
    by_cases hb : s.browser.isSome
    · exact hb
    · cases hp : s.playwright.isSome <;> simp [closeOps, hb, hp] at h
  · intro s h
    by_cases hp : s.playwright.isSome
    · exact hp
    · cases hb : s.browser.isSome <;> simp [closeOps, hb, hp] at h

/-- Witness for C10: a state holding only a browser handle does report its
browser handle set. -/
theorem close_safe_on_never_started_witness :
    (⟨some (), none⟩ : ExporterHandles).browser.isSome = true :=
  close_safe_on_never_started.2.2.1 ⟨some (), none⟩ (by decide)

/-!  ### Authenticator: the whole of `login` (lines 135-281) -/

/-- Helper `splitCommaGo cs acc`: tail of Python `s.split(',')`, with `acc` the
reversed current chunk. -/
def splitCommaGo : List Char → List Char → List String
  | [], acc => [String.mk acc.reverse]
  | c :: cs, acc =>
    if c = ',' then String.mk acc.reverse :: splitCommaGo cs []
    else splitCommaGo cs (c :: acc)

/-- Python `s.split(',')`. -/
def splitComma (s : String) : List String := splitCommaGo s.toList []

/-- Line 212: the candidate answers parsed from the configured
`security_answer` — stripped comma-separated pieces when a comma is
present, the raw string alone otherwise. -/
def parseAnswers (sa : String) : List String :=
  if strContains sa "," then (splitComma sa).map String.trim else [sa]

/-- Environment of one `login()` run: the page handle's presence (a
never-started page makes the very first `goto` raise), the outcomes of
each navigation/wait/scan step, the summarised outcomes of the Element
Resolver calls on the login form (those calls are total, claim C4/C6), the
URL observed after submission, the configured `security_answer`, the
behaviour of each challenge attempt, a possible exception from the
challenge block's own page waits, and the error-text read on the failure
branch (line 273), which can raise. -/
structure LoginEnv where
  pagePresent : Bool
  gotoLogin : Except Unit Unit
  emailFillOk : Bool
  passwordFillOk : Bool
  loginClickOk : Bool
  waitIdle : Except Unit Unit
  bannerScan : Except Unit (Option String)
  urlAfterSubmit : String
  securityAnswer : Option String
  challengeWait : Except Unit Unit
  challengeAt : Nat → AnswerStep
  finalErrorScan : Except Unit Unit

/-- The success/failure tail of `login` (lines 264-276) at the final URL:
on heuristic success `_establish_account_session` runs (it catches its own
errors, lines 286-291) and `True` is returned; otherwise the error text is
read (which can raise) and `False` is returned after a final capture. -/
def loginFinish (u : String) (env : LoginEnv) (caps : List String) :
    Except Unit Bool × List String :=
  if loginSuccessHeuristic u then (.ok true, caps)
  else
    match env.finalErrorScan with
    | .error e => (.error e, caps)
    | .ok _ => (.ok false, caps ++ ["login_final_failure"])

/-- The `login` body without its outer `try/except` (lines 142-276):
`Except`-level result paired with the diagnostics captures requested
(resolver-internal captures are accounted inside the resolver model). -/
def loginBodyRun (env : LoginEnv) : Except Unit Bool × List String :=
  match (if env.pagePresent then env.gotoLogin else .error ()) with
  | .error e => (.error e, [])
  | .ok _ =>
    if ¬ env.emailFillOk then (.ok false, ["login_page"])
    else if ¬ env.passwordFillOk then (.ok false, ["login_page"])
    else if ¬ env.loginClickOk then (.ok false, ["login_page"])
    else
      match env.waitIdle with
      | .error e => (.error e, ["login_page"])
      | .ok _ =>
        match env.bannerScan with
        | .error e => (.error e, ["login_page", "after_login"])
        | .ok (some _) => (.ok false, ["login_page", "after_login"])
        | .ok none =>
          if hasChallengeMarker env.urlAfterSubmit then
            match env.securityAnswer with
            | none => (.ok false, ["login_page", "after_login"])
            | some ans =>
              match env.challengeWait with
              | .error e => (.error e, ["login_page", "after_login"])
              | .ok _ =>
                loginFinish
                  (challengeLoop env.urlAfterSubmit
                    ((List.range (parseAnswers ans).length).map env.challengeAt)).1
                  env ["login_page", "after_login", "after_security"]
          else loginFinish env.urlAfterSubmit env ["login_page", "after_login"]

/-- Method `login` (lines 135-281): the body inside the outer `try/except`; an
uncaught error is logged, a best-effort `login_error` capture is requested
(through `_save_debug_artifacts`, which itself cannot raise), and `False`
is returned. -/
def loginRun (env : LoginEnv) : Bool × List String :=
  match loginBodyRun env with
  | (.ok b, caps) => (b, caps)
  | (.error _, caps) => (false, caps ++ ["login_error"])

/-- C9: `login()` is total over its outcomes: every run returns a boolean;
whenever the body raises anywhere (navigation, waits, banner scan,
challenge handling, final error read — including the never-started page,
where the very first `goto` raises), the outer handler converts it into a
`False` return after a `login_error` capture request; and the diagnostics
sink itself returns without writing (and without raising) when the page is
absent. -/
theorem login_never_raises (env : LoginEnv) :
    ((loginRun env).1 = true ∨ (loginRun env).1 = false) ∧
    (∀ e caps, loginBodyRun env = (.error e, caps) →
      loginRun env = (false, caps ++ ["login_error"])) ∧
    (env.pagePresent = false → loginRun env = (false, ["login_error"])) ∧
    (∀ wOk label, saveDebugArtifacts false wOk label = []) := by
  refine ⟨?_, ?_, ?_, fun wOk label => rfl⟩
  · cases h : (loginRun env).1
    · exact Or.inr rfl
    · exact Or.inl rfl
  · intro e caps h
    unfold loginRun
    rw [h]
  · intro h
    unfold loginRun loginBodyRun
    rw [h]
    rfl

/-- Witness for C9: `login()` on a never-started page returns `False` with
only the `login_error` capture request. -/
theorem login_never_raises_witness :
    loginRun ⟨false, .ok (), true, true, true, .ok (), .ok none,
      "https://system.netsuite.com/pages/customerlogin.jsp", none, .ok (),
      fun _ => ⟨true, true, ""⟩, .ok ()⟩ = (false, ["login_error"]) :=
  (login_never_raises ⟨false, .ok (), true, true, true, .ok (), .ok none,
    "https://system.netsuite.com/pages/customerlogin.jsp", none, .ok (),
    fun _ => ⟨true, true, ""⟩, .ok ()⟩).2.2.1 rfl

end Woobing
